import Mathlib

/-!
Verification development for the realtime-playground conversation engine.

The definitions below are a shallow embedding of the TypeScript sources:

* `RealtimeApiEventProcessor.ts` — the protocol event processor with its
  interrupt cursor (`lastInterruptTimestamp`), audio/text filtering and
  callback sinks;
* `EventProcessor.ts` (abstract base) — listener registration and the
  `triggerEvent` dispatch loop with per-listener error isolation;
* `Conversation.ts` — session teardown (`endSession`/`close`), outbound
  `sendEvent` with its observation side channel, and volume/fade handling.

Stateful methods are embedded as explicit state-passing functions that also
return the list of observable effects (sink invocations, listener dispatches,
transport sends, device operations) produced by one call, in the order the
JavaScript code performs them.  JavaScript numbers produced by `parseFloat`
are modelled as rationals extended with NaN and the two infinities.
-/

namespace Realtime

/-- A JavaScript number as produced by `parseFloat`: a finite value
(modelled exactly as a rational, since the response-id suffixes of interest
are small decimal literals), positive or negative infinity, or NaN. -/
inductive JsNum where
  | nan
  | inf
  | negInf
  | num (q : ℚ)
deriving DecidableEq, Repr

/-- JavaScript `a < b`: false whenever either side is NaN. -/
def jsLt : JsNum → JsNum → Bool
  | .nan, _ => false
  | _, .nan => false
  | .num a, .num b => decide (a < b)
  | .num _, .inf => true
  | .num _, .negInf => false
  | .inf, _ => false
  | .negInf, .negInf => false
  | .negInf, _ => true

/-- JavaScript `a <= b`: false whenever either side is NaN. -/
def jsLe : JsNum → JsNum → Bool
  | .nan, _ => false
  | _, .nan => false
  | .num a, .num b => decide (a ≤ b)
  | .num _, .inf => true
  | .num _, .negInf => false
  | .inf, .inf => true
  | .inf, _ => false
  | .negInf, _ => true

/-- JavaScript `a > b`, which is `b < a`. -/
def jsGt (a b : JsNum) : Bool := jsLt b a

/-- The decimal digits at the front of a character list, and the rest. -/
def takeDigits (cs : List Char) : List Char × List Char :=
  (cs.takeWhile Char.isDigit, cs.dropWhile Char.isDigit)

/-- The natural number denoted by a list of decimal digits (`[] ↦ 0`). -/
def digitsVal (ds : List Char) : Nat :=
  ds.foldl (fun a c => a * 10 + (c.toNat - 48)) 0

/-- The exponent part of a JavaScript float literal: `e`/`E`, an optional
sign and digits.  As in `parseFloat`, an incomplete exponent part (no digit
after the marker) is ignored, yielding exponent 0. -/
def parseExponent (cs : List Char) : Int :=
  match cs with
  | 'e' :: rest =>
    (match rest with
     | '-' :: r => (match takeDigits r with
        | (ds, _) => if ds.isEmpty then 0 else -(digitsVal ds : Int))
     | '+' :: r => (match takeDigits r with
        | (ds, _) => if ds.isEmpty then 0 else (digitsVal ds : Int))
     | r => (match takeDigits r with
        | (ds, _) => if ds.isEmpty then 0 else (digitsVal ds : Int)))
  | 'E' :: rest =>
    (match rest with
     | '-' :: r => (match takeDigits r with
        | (ds, _) => if ds.isEmpty then 0 else -(digitsVal ds : Int))
     | '+' :: r => (match takeDigits r with
        | (ds, _) => if ds.isEmpty then 0 else (digitsVal ds : Int))
     | r => (match takeDigits r with
        | (ds, _) => if ds.isEmpty then 0 else (digitsVal ds : Int)))
  | _ => 0

/-- The rational value of a decimal literal with sign `signNeg`, integer
digits `intDs`, fraction digits `fracDs` and decimal exponent `expn`.  The
value is assembled with integer arithmetic and a single exact division, so
concrete instances reduce inside the kernel. -/
def floatVal (signNeg : Bool) (intDs fracDs : List Char) (expn : Int) : ℚ :=
  let scaled : Int := (digitsVal intDs * 10 ^ fracDs.length + digitsVal fracDs : Nat)
  let sgn : Int := if signNeg then -1 else 1
  if 0 ≤ expn then
    Rat.divInt (sgn * scaled * 10 ^ expn.toNat) (10 ^ fracDs.length)
  else
    Rat.divInt (sgn * scaled) (10 ^ (fracDs.length + (-expn).toNat))

/-- JavaScript `parseFloat` on a character list: skip leading whitespace,
read an optional sign, recognise the `Infinity` literal, otherwise read the
longest decimal literal `digits [. digits] [exponent]`; if no digit is
consumed the result is NaN. -/
def parseFloatL (cs : List Char) : JsNum :=
  let cs0 := cs.dropWhile Char.isWhitespace
  let signNeg : Bool := match cs0 with
    | '-' :: _ => true
    | _ => false
  let cs1 : List Char := match cs0 with
    | '-' :: r => r
    | '+' :: r => r
    | _ => cs0
  if cs1.take 8 = "Infinity".toList then
    (if signNeg then JsNum.negInf else JsNum.inf)
  else
    let intPart := takeDigits cs1
    let fracPart : List Char × List Char := match intPart.2 with
      | '.' :: r => takeDigits r
      | _ => ([], intPart.2)
    if intPart.1.isEmpty ∧ fracPart.1.isEmpty then JsNum.nan
    else
      JsNum.num (floatVal signNeg intPart.1 fracPart.1 (parseExponent fracPart.2))

/-- JavaScript `String.prototype.split` with a single-character separator:
`splitOn sep l` is the list of maximal separator-free segments, keeping
empty segments (so `"" ↦ [""]`, `"a_" ↦ ["a", ""]`). -/
def splitOn (sep : Char) : List Char → List (List Char)
  | [] => [[]]
  | c :: cs =>
    if c = sep then [] :: splitOn sep cs
    else
      match splitOn sep cs with
      | [] => [[c]]
      | h :: t => (c :: h) :: t

/-- `RealtimeApiEventProcessor.parseResponseId`:
`parseFloat(responseId.split('_')[1] || '0')`.  The `|| '0'` replaces a
missing or empty second segment (both falsy) by the string `"0"`. -/
def parseResponseId (responseId : String) : JsNum :=
  let segs := splitOn '_' responseId.toList
  let seg : List Char := match segs.drop 1 with
    | [] => ['0']
    | s :: _ => if s.isEmpty then ['0'] else s
  parseFloatL seg

/-- A server event as consumed by `processServerEvent`: its `type`
discriminator and, for response events, the `response_id` and (for delta
events) the base64 `delta` payload.  Fields that a given event type does not
carry are irrelevant to the embedded code paths. -/
structure ServerEvent where
  type : String
  response_id : String := ""
  delta : String := ""
deriving DecidableEq, Repr

/-- One observable effect of a `RealtimeApiEventProcessor` call: a callback
sink invocation (`onAudioChunk` / `onAudioInterrupt` / `onAudioFadeOut`) or
a `triggerEvent` dispatch to the listeners of a type key. -/
inductive ProcEffect where
  | audioChunk (delta : String)
  | audioInterrupt
  | audioFadeOut
  | trigger (eventType : String) (event : ServerEvent)
deriving DecidableEq, Repr

/-- The mutable state of a `RealtimeApiEventProcessor`: the interrupt cursor
`lastInterruptTimestamp` (initialized to 0) and the presence of the three
optional callback sinks (they are invoked with optional chaining `?.`, so a
missing sink is a no-op). -/
structure ProcState where
  lastInterruptTimestamp : JsNum := JsNum.num 0
  hasAudioChunk : Bool := false
  hasAudioInterrupt : Bool := false
  hasAudioFadeOut : Bool := false
deriving DecidableEq, Repr

/-- `RealtimeApiEventProcessor.handleAudioResponse`: forward the delta of a
non-stale audio-delta event to the audio-chunk sink; `response.audio.done`
needs no action; events with suffix below the cursor produce nothing. -/
def handleAudioResponse (s : ProcState) (e : ServerEvent) : List ProcEffect :=
  let timestamp := parseResponseId e.response_id
  if jsLe s.lastInterruptTimestamp timestamp = true then
    if e.type = "response.audio.delta" then
      (if s.hasAudioChunk then [ProcEffect.audioChunk e.delta] else [])
    else []
  else []

/-- `RealtimeApiEventProcessor.handleAudioInterrupt`: set the cursor to the
event's response suffix, then invoke the interrupt sink, then the fade-out
sink. -/
def handleAudioInterrupt (s : ProcState) (e : ServerEvent) :
    ProcState × List ProcEffect :=
  ({ s with lastInterruptTimestamp := parseResponseId e.response_id },
   (if s.hasAudioInterrupt then [ProcEffect.audioInterrupt] else []) ++
   (if s.hasAudioFadeOut then [ProcEffect.audioFadeOut] else []))

/-- `RealtimeApiEventProcessor.shouldFilterTextEvent`:
`lastInterruptTimestamp > parseResponseId(event.response_id)`. -/
def shouldFilterTextEvent (s : ProcState) (e : ServerEvent) : Bool :=
  jsGt s.lastInterruptTimestamp (parseResponseId e.response_id)

/-- `RealtimeApiEventProcessor.processServerEvent`: route audio delta/done
events to `handleAudioResponse` (returning before any listener dispatch),
cancel events to `handleAudioInterrupt`, drop stale text delta/done events,
and dispatch everything else under its own type key. -/
def processServerEvent (s : ProcState) (e : ServerEvent) :
    ProcState × List ProcEffect :=
  if e.type = "response.audio.delta" ∨ e.type = "response.audio.done" then
    (s, handleAudioResponse s e)
  else if e.type = "response.audio.cancel" then
    handleAudioInterrupt s e
  else if (e.type = "response.text.delta" ∨ e.type = "response.text.done") ∧
      shouldFilterTextEvent s e = true then
    (s, [])
  else
    (s, [ProcEffect.trigger e.type e])

/-- `RealtimeApiEventProcessor.processInternalEvent`: always dispatch the
event unchanged under its type key. -/
def processInternalEvent (s : ProcState) (e : ServerEvent) :
    ProcState × List ProcEffect :=
  (s, [ProcEffect.trigger e.type e])

/-- `RealtimeApiEventProcessor.resetInterruptTimestamp`: reset the cursor
to 0. -/
def resetInterruptTimestamp (s : ProcState) : ProcState :=
  { s with lastInterruptTimestamp := JsNum.num 0 }

/-- `RealtimeApiEventProcessor.getLastInterruptTimestamp`. -/
def getLastInterruptTimestamp (s : ProcState) : JsNum :=
  s.lastInterruptTimestamp

/-- Sequential processing of a list of server events, threading the
processor state and concatenating the effect traces, as the transport's
message loop does (each call runs to completion before the next). -/
def processServerEvents : ProcState → List ServerEvent → ProcState × List ProcEffect
  | s, [] => (s, [])
  | s, e :: es =>
    let r := processServerEvent s e
    let rest := processServerEvents r.1 es
    (rest.1, r.2 ++ rest.2)

/-- A registered listener of the abstract `EventProcessor`, identified by a
tag and modelled by its observable behaviour when invoked: `throwsMsg = none`
means the handler returns normally, `throwsMsg = some m` means it throws an
error whose `message` is `m`. -/
structure Listener where
  id : Nat
  throwsMsg : Option String := none
deriving DecidableEq, Repr

/-- The `error` field of the error event synthesized by
`EventProcessor.handleError`. -/
structure ErrorInfo where
  code : String
  message : String
deriving DecidableEq, Repr

/-- A value passed to listeners by `triggerEvent`: either an event payload
or the error event synthesized by `handleError` (its random `event_id` is
omitted from the model). -/
inductive DispatchedEvent where
  | payload (e : ServerEvent)
  | errorEvent (info : ErrorInfo)
deriving DecidableEq, Repr

/-- The `eventHandlers` map of `EventProcessor`: per event-type key, the
registered listeners in insertion order (a JavaScript `Set` iterates in
insertion order). -/
abbrev HandlerMap := List (String × List Listener)

/-- Lookup of `eventHandlers.get(eventType)`, with a missing key yielding no
listeners. -/
def getHandlers (hs : HandlerMap) (ty : String) : List Listener :=
  match hs.find? (fun p => p.1 == ty) with
  | some p => p.2
  | none => []

/-- The error event built by `EventProcessor.handleError`: type `error`,
code `internal_error`, and `error.message || 'Internal error occurred'`
(an empty message string is falsy in JavaScript). -/
def synthesizedError (msg : String) : DispatchedEvent :=
  DispatchedEvent.errorEvent
    ⟨"internal_error", if msg.isEmpty then "Internal error occurred" else msg⟩

/-- `EventProcessor.triggerEvent`: invoke each listener of the key in order
with the event; a throwing listener is caught individually and `handleError`
immediately re-dispatches a synthesized error event to the `error` key
before the next listener runs.  The result is the trace of listener
invocations `(listener id, key, event)`.  `fuel` bounds the re-dispatch
depth (in JavaScript a throwing `error` listener recurses until the stack
overflows; every theorem below supplies enough fuel for its scenario). -/
def triggerEvent : Nat → HandlerMap → String → DispatchedEvent →
    List (Nat × String × DispatchedEvent)
  | 0, _, _, _ => []
  | fuel + 1, hs, ty, ev =>
    (getHandlers hs ty).flatMap (fun l =>
      (l.id, ty, ev) ::
        (match l.throwsMsg with
         | none => []
         | some m => triggerEvent fuel hs "error" (synthesizedError m)))

/-- A client event as accepted by `Conversation.sendEvent`; only the `type`
discriminator steers the embedded control flow, the rest of the payload is
carried opaquely. -/
structure ClientEvent where
  type : String
deriving DecidableEq, Repr

/-- The render device (`AudioOutput`) state visible to `Conversation`: the
value of its gain node. -/
structure AudioOutputState where
  gainValue : ℚ
deriving DecidableEq, Repr

/-- The fields of a `Conversation` relevant to teardown, sending and volume:
whether `ws` is non-null, `isConnected`, `isMuted`, the cached `volume`,
whether `audioInput` is non-null, the render device state (`none` when
`audioOutput` is null), and whether an `onSendEvent` observation callback
was supplied. -/
structure ConvState where
  wsPresent : Bool
  isConnected : Bool
  isMuted : Bool := false
  volume : ℚ := 1
  audioInputPresent : Bool
  audioOutput : Option AudioOutputState
  hasOnSendEvent : Bool
deriving DecidableEq, Repr

/-- One observable effect of a `Conversation` method call, in program
order: device/transport teardown steps, an internal event fed to the event
processor, the debug log line in `sendEvent`, the serialized transmission
`ws.send(JSON.stringify(event))`, the `onSendEvent` observation callback,
an error report (`handleError`), a message posted to the render worklet, or
a scheduled gain ramp. -/
inductive ConvEffect where
  | closeAudioInput
  | closeAudioOutput
  | closeWs
  | internalEvent (ty : String)
  | logEvent (e : ClientEvent)
  | wsSend (e : ClientEvent)
  | observe (e : ClientEvent)
  | reportError (msg : String)
  | workletPost (msg : String)
  | gainRamp (target : ℚ)
deriving DecidableEq, Repr

/-- `Conversation.sendEvent`: throw `WebSocket is not connected` unless a
socket exists and the session is connected; otherwise log the event (unless
it is an audio-append event), send it over the socket, and finally mirror it
to the `onSendEvent` callback (again unless it is an audio-append event, and
only when the callback exists). -/
def sendEvent (s : ConvState) (e : ClientEvent) :
    Except String (List ConvEffect) :=
  if ¬ s.wsPresent = true ∨ ¬ s.isConnected = true then
    Except.error "WebSocket is not connected"
  else
    Except.ok
      ((if e.type ≠ "input_audio_buffer.append" then [ConvEffect.logEvent e] else []) ++
       [ConvEffect.wsSend e] ++
       (if e.type ≠ "input_audio_buffer.append" then
          (if s.hasOnSendEvent then [ConvEffect.observe e] else [])
        else []))

/-- `Conversation.endSession`, with the outcome of the awaited device-close
calls supplied by the environment: `closeFailure = some msg` means the first
awaited close rejects with an error whose message is `msg`, in which case
the catch block reports it via `handleError` and re-throws; on success the
devices and socket are closed (the `audioInput`/`audioOutput` fields are
never nulled), `ws` is nulled, `isConnected` is reset, and one internal
`disconnected` event is fed to the event processor.  The third component is
the thrown error, if any. -/
def endSession (s : ConvState) (closeFailure : Option String) :
    ConvState × List ConvEffect × Option String :=
  match closeFailure with
  | some msg => (s, [ConvEffect.reportError msg], some msg)
  | none =>
    ({ s with wsPresent := false, isConnected := false },
     (if s.audioInputPresent then [ConvEffect.closeAudioInput] else []) ++
     (if s.audioOutput.isSome then [ConvEffect.closeAudioOutput] else []) ++
     (if s.wsPresent then [ConvEffect.closeWs] else []) ++
     [ConvEffect.internalEvent "disconnected"],
     none)

/-- `Conversation.close`: call `endSession` and swallow any thrown error
after reporting it via `handleError`; it never throws (the result carries no
error component). -/
def close (s : ConvState) (closeFailure : Option String) :
    ConvState × List ConvEffect :=
  match endSession s closeFailure with
  | (s2, tr, none) => (s2, tr)
  | (s2, tr, some msg) => (s2, tr ++ [ConvEffect.reportError msg])

/-- `Conversation.setVolume`: store `Math.max(0, Math.min(1, volume))` and,
when a render device exists, apply it to the gain node. -/
def setVolume (s : ConvState) (v : ℚ) : ConvState :=
  let vol := max 0 (min 1 v)
  { s with volume := vol,
           audioOutput := s.audioOutput.map (fun ao => { ao with gainValue := vol }) }

/-- `Conversation.getVolume`. -/
def getVolume (s : ConvState) : ℚ := s.volume

/-- `Conversation.fadeOutAudio`: a no-op without a render device; otherwise
post `interrupt` to the worklet and start an exponential gain ramp toward
0.0001 over two seconds (the completion handler is modelled separately by
`fadeOutTimerFire`). -/
def fadeOutAudio (s : ConvState) : ConvState × List ConvEffect :=
  match s.audioOutput with
  | none => (s, [])
  | some _ =>
    (s, [ConvEffect.workletPost "interrupt", ConvEffect.gainRamp (Rat.divInt 1 10000)])

/-- The `setTimeout` completion handler scheduled by
`Conversation.fadeOutAudio`: after the two-second fade it null-checks the
render device, restores its gain to the stored volume and posts
`clearInterrupted`. -/
def fadeOutTimerFire (s : ConvState) : ConvState × List ConvEffect :=
  match s.audioOutput with
  | none => (s, [])
  | some ao =>
    ({ s with audioOutput := some { ao with gainValue := s.volume } },
     [ConvEffect.workletPost "clearInterrupted"])

/-- The number of internal `disconnected` events in an effect trace. -/
def countDisconnected : List ConvEffect → Nat
  | [] => 0
  | ConvEffect.internalEvent ty :: tr =>
    (if ty = "disconnected" then 1 else 0) + countDisconnected tr
  | _ :: tr => countDisconnected tr

/-- `beforeIn tr a b` holds when some occurrence of `a` in `tr` strictly
precedes an occurrence of `b`. -/
def beforeIn (tr : List ConvEffect) (a b : ConvEffect) : Bool :=
  match tr with
  | [] => false
  | x :: xs => if x = a then decide (b ∈ xs) else beforeIn xs a b

/-- A processor state with cursor 100 and all three sinks configured, used
as a concrete evaluation point. -/
def procGate : ProcState :=
  { lastInterruptTimestamp := JsNum.num 100,
    hasAudioChunk := true, hasAudioInterrupt := true, hasAudioFadeOut := true }

/-- A concrete `response.audio.delta` event for response `resp_100`. -/
def deltaResp100 : ServerEvent :=
  { type := "response.audio.delta", response_id := "resp_100", delta := "BBB=" }

/-- A concrete `response.text.delta` event for the superseded response
`resp_50`. -/
def textResp50 : ServerEvent :=
  { type := "response.text.delta", response_id := "resp_50", delta := "hi" }

/-- A concrete interrupt event for response `resp_100`. -/
def cancelA : ServerEvent :=
  { type := "response.audio.cancel", response_id := "resp_100" }

/-- A concrete interrupt event for response `resp_50`. -/
def cancelB : ServerEvent :=
  { type := "response.audio.cancel", response_id := "resp_50" }

/-- A connected conversation with both devices open and an observation
callback installed, used as a concrete evaluation point. -/
def convLive : ConvState :=
  { wsPresent := true, isConnected := true, isMuted := false, volume := 1,
    audioInputPresent := true, audioOutput := some ⟨1⟩, hasOnSendEvent := true }

/-- A handler map with two listeners on key `msg` (the first throws) and one
well-behaved listener on key `error`. -/
def handlersW : HandlerMap :=
  [("msg", [⟨1, some "boom"⟩, ⟨2, none⟩]), ("error", [⟨7, none⟩])]

/-- Sanity evaluations of the embedded `parseFloat`/`parseResponseId`. -/
example : parseResponseId "resp_100" = JsNum.num 100 := by decide
example : parseResponseId "resp" = JsNum.num 0 := by decide
example : parseResponseId "resp_" = JsNum.num 0 := by decide
example : parseResponseId "resp_abc" = JsNum.nan := by decide
example : parseFloatL "12.5".toList = JsNum.num (Rat.divInt 25 2) := by decide
example : parseFloatL "-Infinity".toList = JsNum.negInf := by decide
example : parseFloatL "1e2x".toList = JsNum.num 100 := by decide

/-- In JavaScript, `a < b = true` excludes NaN on both sides, hence `b <= a`
is false. -/
theorem jsLt_true_jsLe_false {a b : JsNum} (h : jsLt a b = true) :
    jsLe b a = false := by
  cases a <;> cases b <;> simp [jsLt, jsLe] at h ⊢
  exact h

/-- Routing lemma: an audio delta/done event takes the
`handleAudioResponse` branch, leaving the state unchanged. -/
theorem processServerEvent_audio (s : ProcState) (e : ServerEvent)
    (hty : e.type = "response.audio.delta" ∨ e.type = "response.audio.done") :
    processServerEvent s e = (s, handleAudioResponse s e) := by
  unfold processServerEvent
  rw [if_pos hty]

/-- Routing lemma: a cancel event takes the `handleAudioInterrupt` branch. -/
theorem processServerEvent_cancel (s : ProcState) (e : ServerEvent)
    (hty : e.type = "response.audio.cancel") :
    processServerEvent s e = handleAudioInterrupt s e := by
  unfold processServerEvent
  rw [hty]
  rw [if_neg (by decide), if_pos rfl]

/-- Routing lemma: a text delta/done event is dropped when
`shouldFilterTextEvent` holds and dispatched under its type key otherwise. -/
theorem processServerEvent_text (s : ProcState) (e : ServerEvent)
    (hty : e.type = "response.text.delta" ∨ e.type = "response.text.done") :
    processServerEvent s e =
      if shouldFilterTextEvent s e = true then (s, [])
      else (s, [ProcEffect.trigger e.type e]) := by
  unfold processServerEvent
  rcases hty with h | h <;> rw [h] <;>
    rw [if_neg (by decide), if_neg (by decide)] <;>
    by_cases hf : shouldFilterTextEvent s e = true
  · rw [if_pos ⟨Or.inl rfl, hf⟩, if_pos hf]
  · rw [if_neg (by simp [hf]), if_neg hf]
  · rw [if_pos ⟨Or.inr rfl, hf⟩, if_pos hf]
  · rw [if_neg (by simp [hf]), if_neg hf]

/-- C1: for a `response.audio.delta` event, if the response suffix is
greater than or equal to the interrupt cursor (the boundary is inclusive)
the audio-chunk sink — when configured — is invoked with exactly the event's
delta payload; if the suffix is strictly less than the cursor, the call
produces no effect at all: no sink invocation and no listener dispatch. -/
theorem audio_delta_cursor_gate (s : ProcState) (e : ServerEvent)
    (hty : e.type = "response.audio.delta") :
    (jsLe s.lastInterruptTimestamp (parseResponseId e.response_id) = true →
      s.hasAudioChunk = true →
      (processServerEvent s e).2 = [ProcEffect.audioChunk e.delta]) ∧
    (jsLt (parseResponseId e.response_id) s.lastInterruptTimestamp = true →
      (processServerEvent s e).2 = []) := by
  have hroute := processServerEvent_audio s e (Or.inl hty)
  constructor
  · intro hle hck
    rw [hroute]
    show handleAudioResponse s e = _
    unfold handleAudioResponse
    rw [if_pos hle, if_pos hty, if_pos hck]
  · intro hlt
    rw [hroute]
    show handleAudioResponse s e = _
    unfold handleAudioResponse
    rw [if_neg (by simp [jsLt_true_jsLe_false hlt])]

/-- C1 witness: with cursor 100 and an incoming delta for `resp_100`
(suffix equal to the cursor), the sink receives the payload — the boundary
is inclusive. -/
theorem audio_delta_cursor_gate_witness :
    (processServerEvent procGate deltaResp100).2 = [ProcEffect.audioChunk "BBB="] :=
  (audio_delta_cursor_gate procGate deltaResp100 rfl).1 (by decide) rfl

/-- After processing a nonempty sequence of cancel events, the interrupt
cursor equals the response suffix of the last one — `handleAudioInterrupt`
overwrites the cursor, it does not take a maximum. -/
theorem cursorAfterCancels (es : List ServerEvent) :
    ∀ s : ProcState, (∀ e ∈ es, e.type = "response.audio.cancel") →
    ∀ hne : es ≠ [],
    (processServerEvents s es).1.lastInterruptTimestamp
      = parseResponseId (es.getLast hne).response_id := by
  induction es with
  | nil => intro s _ hne; exact absurd rfl hne
  | cons e es ih =>
    intro s hty hne
    have hcancel : e.type = "response.audio.cancel" := hty e (List.mem_cons_self e es)
    have hstep : (processServerEvents s (e :: es)).1
        = (processServerEvents (processServerEvent s e).1 es).1 := rfl
    cases es with
    | nil =>
      rw [hstep]
      show (processServerEvent s e).1.lastInterruptTimestamp = _
      rw [processServerEvent_cancel s e hcancel]
      rfl
    | cons e2 es2 =>
      have hty2 : ∀ x ∈ e2 :: es2, x.type = "response.audio.cancel" :=
        fun x hx => hty x (List.mem_cons_of_mem e hx)
      have hne2 : (e2 :: es2) ≠ [] := List.cons_ne_nil e2 es2
      rw [hstep, ih ((processServerEvent s e).1) hty2 hne2]
      rw [List.getLast_cons hne2]

/-- C2 counterexample: processing the cancel for `resp_100` alone leaves
the cursor at 100, but processing the cancels for `resp_100` and then
`resp_50` leaves it at 50, not at the maximum 100 — the cursor decreased
with no `resetInterruptTimestamp` call. -/
theorem interrupt_cursor_not_max_counterexample :
    (processServerEvents { lastInterruptTimestamp := JsNum.num 0 } [cancelA]).1.lastInterruptTimestamp
      = JsNum.num 100 ∧
    (processServerEvents { lastInterruptTimestamp := JsNum.num 0 } [cancelA, cancelB]).1.lastInterruptTimestamp
      = JsNum.num 50 ∧
    JsNum.num 50 ≠ JsNum.num 100 := by decide

/-- C2 (amended): after any nonempty sequence of cancel events the
interrupt cursor equals the response suffix of the most recently processed
one (which coincides with the maximum only when the suffixes arrive in
non-decreasing order, as the protocol's generation-order invariant
promises), and `resetInterruptTimestamp` returns it to zero. -/
theorem interrupt_cursor_tracks_latest (s : ProcState) (es : List ServerEvent)
    (hty : ∀ e ∈ es, e.type = "response.audio.cancel") (hne : es ≠ []) :
    (processServerEvents s es).1.lastInterruptTimestamp
      = parseResponseId (es.getLast hne).response_id ∧
    getLastInterruptTimestamp (resetInterruptTimestamp (processServerEvents s es).1)
      = JsNum.num 0 :=
  ⟨cursorAfterCancels es s hty hne, rfl⟩

/-- C2 witness: the amended statement evaluated on the two-cancel run
`resp_100` then `resp_50`. -/
theorem interrupt_cursor_tracks_latest_witness :
    (processServerEvents procGate [cancelA, cancelB]).1.lastInterruptTimestamp
      = parseResponseId (([cancelA, cancelB].getLast (List.cons_ne_nil _ _)).response_id) ∧
    getLastInterruptTimestamp
        (resetInterruptTimestamp (processServerEvents procGate [cancelA, cancelB]).1)
      = JsNum.num 0 :=
  interrupt_cursor_tracks_latest procGate [cancelA, cancelB] (by decide)
    (List.cons_ne_nil _ _)

/-- C3: a `response.text.delta` or `response.text.done` event whose response
suffix is strictly below the interrupt cursor produces no dispatch at all,
and otherwise is dispatched unchanged to the listeners of its own type
key. -/
theorem text_event_stale_filter (s : ProcState) (e : ServerEvent)
    (hty : e.type = "response.text.delta" ∨ e.type = "response.text.done") :
    (jsLt (parseResponseId e.response_id) s.lastInterruptTimestamp = true →
      (processServerEvent s e).2 = []) ∧
    (jsLt (parseResponseId e.response_id) s.lastInterruptTimestamp = false →
      (processServerEvent s e).2 = [ProcEffect.trigger e.type e]) := by
  have hroute := processServerEvent_text s e hty
  have hfe : shouldFilterTextEvent s e
      = jsLt (parseResponseId e.response_id) s.lastInterruptTimestamp := rfl
  constructor
  · intro h
    have hf : shouldFilterTextEvent s e = true := by rw [hfe]; exact h
    rw [hroute, if_pos hf]
  · intro h
    have hf : shouldFilterTextEvent s e = false := by rw [hfe]; exact h
    rw [hroute, if_neg (by simp [hf])]

/-- C3 witness: with cursor 100, the text delta for the superseded response
`resp_50` reaches no listener. -/
theorem text_event_stale_filter_witness :
    (processServerEvent procGate textResp50).2 = [] :=
  (text_event_stale_filter procGate textResp50 (Or.inl rfl)).1 (by decide)

/-- C7: a `response.audio.cancel` event sets the interrupt cursor to its
response suffix and produces exactly the configured sink invocations, the
audio-interrupt sink strictly before the audio-fade-out sink; with both
sinks present the effect trace is exactly `[interrupt, fadeOut]`. -/
theorem audio_cancel_sink_order (s : ProcState) (e : ServerEvent)
    (hty : e.type = "response.audio.cancel") :
    (processServerEvent s e).1.lastInterruptTimestamp = parseResponseId e.response_id ∧
    (processServerEvent s e).2 =
      (if s.hasAudioInterrupt then [ProcEffect.audioInterrupt] else []) ++
      (if s.hasAudioFadeOut then [ProcEffect.audioFadeOut] else []) ∧
    (s.hasAudioInterrupt = true → s.hasAudioFadeOut = true →
      (processServerEvent s e).2 = [ProcEffect.audioInterrupt, ProcEffect.audioFadeOut]) := by
  rw [processServerEvent_cancel s e hty]
  refine ⟨rfl, rfl, ?_⟩
  intro h1 h2
  simp [handleAudioInterrupt, h1, h2]

/-- C7 witness: with both sinks configured, the cancel for `resp_100` sets
the cursor to 100 and invokes interrupt then fade-out. -/
theorem audio_cancel_sink_order_witness :
    (processServerEvent procGate cancelA).2
      = [ProcEffect.audioInterrupt, ProcEffect.audioFadeOut] :=
  (audio_cancel_sink_order procGate cancelA rfl).2.2 rfl rfl

/-- C10: audio delta/done events never reach the type-keyed listener
dispatch, whatever the cursor value — `processServerEvent` returns from the
audio branch before `triggerEvent`, so the effect trace contains no
dispatch. -/
theorem audio_events_never_dispatched (s : ProcState) (e : ServerEvent)
    (hty : e.type = "response.audio.delta" ∨ e.type = "response.audio.done") :
    ∀ ty ev, ProcEffect.trigger ty ev ∉ (processServerEvent s e).2 := by
  intro ty ev
  rw [processServerEvent_audio s e hty]
  show ProcEffect.trigger ty ev ∉ handleAudioResponse s e
  by_cases h1 : jsLe s.lastInterruptTimestamp (parseResponseId e.response_id) = true <;>
  by_cases h2 : e.type = "response.audio.delta" <;>
  by_cases h3 : s.hasAudioChunk = true <;>
  simp [handleAudioResponse, h1, h2, h3]

/-- C10 witness: a fresh, non-stale audio delta (suffix 100 ≥ cursor 100)
still produces no listener dispatch under its own type key. -/
theorem audio_events_never_dispatched_witness :
    ProcEffect.trigger "response.audio.delta" deltaResp100 ∉
      (processServerEvent procGate deltaResp100).2 :=
  audio_events_never_dispatched procGate deltaResp100 (Or.inl rfl)
    "response.audio.delta" deltaResp100

/-- C4 counterexample: two successive successful `endSession` calls on a
live conversation feed the event processor two internal `disconnected`
events — one per call — not exactly one as claimed (`endSession` emits
unconditionally and never marks the session as already closed). -/
theorem end_session_twice_counterexample :
    countDisconnected ((endSession convLive none).2.1
        ++ (endSession (endSession convLive none).1 none).2.1) = 2 ∧
    (endSession (endSession convLive none).1 none).2.2 = none ∧
    (2 : Nat) ≠ 1 := by decide

/-- C4 (amended): every `endSession` call with succeeding device closes
emits exactly one internal `disconnected` event and throws nothing — so two
calls emit two such events; when a device close rejects, `endSession`
reports the error and then re-throws it (it does not swallow); the `close`
wrapper is the method that swallows the reported failure and never
throws. -/
theorem end_session_teardown_behavior (s : ConvState) (m : String) :
    ((endSession s none).2.2 = none ∧
      countDisconnected (endSession s none).2.1 = 1) ∧
    ((endSession s (some m)).2.2 = some m ∧
      ConvEffect.reportError m ∈ (endSession s (some m)).2.1) ∧
    ((close s none).2 = (endSession s none).2.1 ∧
      (close s (some m)).2
        = (endSession s (some m)).2.1 ++ [ConvEffect.reportError m]) := by
  refine ⟨⟨rfl, ?_⟩, ⟨rfl, by simp [endSession]⟩, rfl, rfl⟩
  cases hin : s.audioInputPresent <;> cases hout : s.audioOutput <;>
    cases hws : s.wsPresent <;>
    simp [endSession, countDisconnected, hin, hout, hws]

/-- C5 helper: splitting a list that does not contain the separator yields
the single segment. -/
theorem splitOn_of_not_mem {sep : Char} {l : List Char} (h : sep ∉ l) :
    splitOn sep l = [l] := by
  induction l with
  | nil => rfl
  | cons c cs ih =>
    have hc : ¬ c = sep := fun hcs => h (hcs ▸ List.mem_cons_self c cs)
    have hcs : sep ∉ cs := fun hm => h (List.mem_cons_of_mem c hm)
    unfold splitOn
    rw [if_neg hc, ih hcs]

/-- C5 helper: splitting at the first separator occurrence peels off the
separator-free part in front of it. -/
theorem splitOn_append_sep {sep : Char} {pre rest : List Char} (h : sep ∉ pre) :
    splitOn sep (pre ++ sep :: rest) = pre :: splitOn sep rest := by
  induction pre with
  | nil => simp [splitOn]
  | cons c cs ih =>
    have hc : ¬ c = sep := fun hcs => h (hcs ▸ List.mem_cons_self c cs)
    have hcs : sep ∉ cs := fun hm => h (List.mem_cons_of_mem c hm)
    show splitOn sep (c :: (cs ++ sep :: rest)) = (c :: cs) :: splitOn sep rest
    conv_lhs => rw [splitOn]
    rw [if_neg hc, ih hcs]

/-- C5 counterexample: the response identifier `resp_abc` has a present but
non-numeric suffix; `parseResponseId` yields NaN, not zero (JavaScript
`parseFloat('abc')` is NaN — the `|| '0'` fallback only replaces an absent
or empty segment, which is falsy, not a malformed one). -/
theorem parse_malformed_counterexample :
    parseResponseId "resp_abc" = JsNum.nan ∧ JsNum.nan ≠ JsNum.num 0 := by decide

/-- C5 (amended): extraction splits the identifier on `_` and parses the
second segment with `parseFloat`; an absent separator or an empty second
segment yields zero (via the `|| '0'` fallback), while a present,
separator-free second segment is handed to `parseFloat` as is — so a
non-numeric suffix such as `abc` yields NaN rather than zero. -/
theorem parse_response_id_amended :
    (∀ id : String, '_' ∉ id.toList → parseResponseId id = JsNum.num 0) ∧
    (∀ id : String, ∀ pre : List Char,
      id.toList = pre ++ ['_'] → '_' ∉ pre → parseResponseId id = JsNum.num 0) ∧
    (∀ id : String, ∀ pre suf : List Char,
      id.toList = pre ++ '_' :: suf → '_' ∉ pre → '_' ∉ suf → suf ≠ [] →
      parseResponseId id = parseFloatL suf) ∧
    parseFloatL "abc".toList = JsNum.nan := by
  refine ⟨?_, ?_, ?_, by decide⟩
  · intro id h
    unfold parseResponseId
    rw [splitOn_of_not_mem h]
    show parseFloatL ['0'] = JsNum.num 0
    decide
  · intro id pre h hpre
    unfold parseResponseId
    rw [h, splitOn_append_sep hpre]
    show parseFloatL ['0'] = JsNum.num 0
    decide
  · intro id pre suf h hpre hsuf hne
    unfold parseResponseId
    rw [h, splitOn_append_sep hpre, splitOn_of_not_mem hsuf]
    have hie : suf.isEmpty = false := by
      cases suf with
      | nil => exact absurd rfl hne
      | cons a l => rfl
    show parseFloatL (if suf.isEmpty = true then ['0'] else suf) = parseFloatL suf
    rw [hie]
    simp

/-- C5 witness: the amended statement evaluated at an identifier with no
separator, which parses to zero. -/
theorem parse_response_id_amended_witness :
    parseResponseId "resp" = JsNum.num 0 :=
  parse_response_id_amended.1 "resp" (by decide)

/-- One-step unfolding of `triggerEvent` at positive fuel. -/
theorem triggerEvent_succ (fuel : Nat) (hs : HandlerMap) (ty : String)
    (ev : DispatchedEvent) :
    triggerEvent (fuel + 1) hs ty ev
      = (getHandlers hs ty).flatMap (fun l =>
          (l.id, ty, ev) ::
            (match l.throwsMsg with
             | none => []
             | some m => triggerEvent fuel hs "error" (synthesizedError m))) := rfl

/-- C6: with two listeners registered on a key and the first throwing, the
second is still invoked with the same event payload, and the thrown error
is caught and re-dispatched as a synthesized `internal_error` event to every
listener of the `error` key (assumed well-behaved, as a throwing error
listener would recurse in the original code). -/
theorem listener_isolation (hs : HandlerMap) (ty : String) (ev : DispatchedEvent)
    (l1 l2 : Listener) (m : String)
    (hget : getHandlers hs ty = [l1, l2])
    (hthrow : l1.throwsMsg = some m)
    (herr : ∀ l ∈ getHandlers hs "error", l.throwsMsg = none) :
    (l2.id, ty, ev) ∈ triggerEvent 2 hs ty ev ∧
    ∀ l ∈ getHandlers hs "error",
      (l.id, "error", synthesizedError m) ∈ triggerEvent 2 hs ty ev := by
  have h2 : triggerEvent 2 hs ty ev
      = ((l1.id, ty, ev) :: triggerEvent 1 hs "error" (synthesizedError m)) ++
        (((l2.id, ty, ev) ::
          (match l2.throwsMsg with
           | none => []
           | some m2 => triggerEvent 1 hs "error" (synthesizedError m2))) ++ []) := by
    rw [show (2 : Nat) = 1 + 1 from rfl, triggerEvent_succ, hget]
    rw [List.flatMap_cons, List.flatMap_cons, List.flatMap_nil, hthrow]
  constructor
  · rw [h2]
    simp
  · intro l hl
    have hmem : (l.id, "error", synthesizedError m)
        ∈ triggerEvent 1 hs "error" (synthesizedError m) := by
      rw [show (1 : Nat) = 0 + 1 from rfl, triggerEvent_succ]
      exact List.mem_flatMap.mpr ⟨l, hl, List.mem_cons_self _ _⟩
    rw [h2]
    simp [hmem]

/-- C6 witness: in a concrete handler map where listener 1 on key `msg`
throws `boom` and listener 2 does not, listener 2 is still invoked with the
dispatched payload. -/
theorem listener_isolation_witness :
    ((2 : Nat), "msg", DispatchedEvent.payload { type := "msg" }) ∈
      triggerEvent 2 handlersW "msg" (DispatchedEvent.payload { type := "msg" }) :=
  (listener_isolation handlersW "msg" (DispatchedEvent.payload { type := "msg" })
    ⟨1, some "boom"⟩ ⟨2, none⟩ "boom" (by decide) rfl (by decide)).1

/-- C8 counterexample: for a concrete accepted non-append event, the
`sendEvent` effect trace is debug-log, then transmission, then the
`onSendEvent` observation callback — the callback is not invoked before
the event is serialized and transmitted (no `observe` precedes `wsSend`),
contradicting the claimed ordering. -/
theorem observe_after_send_counterexample :
    sendEvent convLive { type := "session.update" } = Except.ok
      [ConvEffect.logEvent { type := "session.update" },
       ConvEffect.wsSend { type := "session.update" },
       ConvEffect.observe { type := "session.update" }] ∧
    beforeIn
      [ConvEffect.logEvent { type := "session.update" },
       ConvEffect.wsSend { type := "session.update" },
       ConvEffect.observe { type := "session.update" }]
      (ConvEffect.observe { type := "session.update" })
      (ConvEffect.wsSend { type := "session.update" }) = false ∧
    beforeIn
      [ConvEffect.logEvent { type := "session.update" },
       ConvEffect.wsSend { type := "session.update" },
       ConvEffect.observe { type := "session.update" }]
      (ConvEffect.wsSend { type := "session.update" })
      (ConvEffect.observe { type := "session.update" }) = true :=
  ⟨rfl, by decide, by decide⟩

/-- C8 (amended): while connected, a non-append outbound event is logged
before transmission and mirrored to the observation callback immediately
after transmission (when the callback exists); an
`input_audio_buffer.append` event is transmitted with neither the log nor
the observation callback. -/
theorem send_event_observation (s : ConvState) (e : ClientEvent)
    (hws : s.wsPresent = true) (hconn : s.isConnected = true) :
    (e.type ≠ "input_audio_buffer.append" →
      sendEvent s e = Except.ok
        ([ConvEffect.logEvent e, ConvEffect.wsSend e] ++
         (if s.hasOnSendEvent then [ConvEffect.observe e] else []))) ∧
    (e.type = "input_audio_buffer.append" →
      sendEvent s e = Except.ok [ConvEffect.wsSend e] ∧
      ConvEffect.observe e ∉ [ConvEffect.wsSend e] ∧
      ConvEffect.logEvent e ∉ [ConvEffect.wsSend e]) := by
  constructor
  · intro hne
    unfold sendEvent
    rw [if_neg (by simp [hws, hconn]), if_pos hne, if_pos hne]
    rfl
  · intro happ
    unfold sendEvent
    rw [if_neg (by simp [hws, hconn]), if_neg (by simp [happ]),
        if_neg (by simp [happ])]
    exact ⟨rfl, by simp, by simp⟩

/-- C8 witness: the amended statement evaluated on a connected conversation
and a concrete control event. -/
theorem send_event_observation_witness :
    sendEvent convLive { type := "response.create" } = Except.ok
      ([ConvEffect.logEvent { type := "response.create" },
        ConvEffect.wsSend { type := "response.create" }] ++
       (if convLive.hasOnSendEvent
        then [ConvEffect.observe { type := "response.create" }] else [])) :=
  (send_event_observation convLive { type := "response.create" } rfl rfl).1
    (by decide)

/-- C9: `setVolume` stores the input clamped to `[0, 1]`, `getVolume`
returns the stored value, the stored value lies in `[0, 1]`, and after the
fade-out's scheduled completion fires, the render device's gain is restored
to that stored volume. -/
theorem volume_clamp_and_fade_restore (s : ConvState) (v : ℚ)
    (hao : s.audioOutput.isSome = true) :
    getVolume (setVolume s v) = max 0 (min 1 v) ∧
    0 ≤ getVolume (setVolume s v) ∧
    getVolume (setVolume s v) ≤ 1 ∧
    (fadeOutTimerFire (fadeOutAudio (setVolume s v)).1).1.audioOutput
      = some ⟨max 0 (min 1 v)⟩ := by
  obtain ⟨ao, hao2⟩ := Option.isSome_iff_exists.mp hao
  refine ⟨rfl, le_max_left 0 _, max_le (by norm_num) (min_le_left 1 v), ?_⟩
  simp [setVolume, fadeOutAudio, fadeOutTimerFire, hao2]

/-- C9 witness: setting volume 5/2 on a live conversation stores 1, and
after the fade completion the gain is back at 1. -/
theorem volume_clamp_and_fade_restore_witness :
    getVolume (setVolume convLive (Rat.divInt 5 2)) = max 0 (min 1 (Rat.divInt 5 2)) ∧
    0 ≤ getVolume (setVolume convLive (Rat.divInt 5 2)) ∧
    getVolume (setVolume convLive (Rat.divInt 5 2)) ≤ 1 ∧
    (fadeOutTimerFire (fadeOutAudio (setVolume convLive (Rat.divInt 5 2))).1).1.audioOutput
      = some ⟨max 0 (min 1 (Rat.divInt 5 2))⟩ :=
  volume_clamp_and_fade_restore convLive (Rat.divInt 5 2) (by decide)

end Realtime
